import Mathlib

/-!
# Verification of the rangefinder firmware core

Shallow embedding of the range telemetry and configuration subsystem of the
firmware under `src/firmware/src/` (range_service.c, main.c, battery.c),
together with proofs of the specified properties.

Machine integers are modelled as `Nat`/`Int` with explicit reduction
modulo `2^16` or `2^8` where the C code performs a narrowing conversion.
-/

namespace Rangefinder

/-! ## Data model -/

/-- The configuration record `struct range_config` (range_service.h).
Four `uint16_t` fields in declaration order: `sample_interval_ms`,
`notify_interval_ms`, `max_range_mm`, `min_range_mm`. -/
structure RangeConfig where
  sample_interval_ms : Nat
  notify_interval_ms : Nat
  max_range_mm : Nat
  min_range_mm : Nat
deriving Repr, DecidableEq

/-- The default `active_config` (range_service.c lines 14-19): `min_range_mm = 30`,
`max_range_mm = 1200`. The two interval defaults come from the build
configuration (`CONFIG_RANGE_SAMPLE_INTERVAL_MS` / `CONFIG_RANGE_NOTIFY_INTERVAL_MS`
in prj.conf, not part of the analysed sources); their values are immaterial to
every property proved here, and a representative in-range value is used. -/
def default_config : RangeConfig :=
  { sample_interval_ms := 100
    notify_interval_ms := 100
    max_range_mm := 1200
    min_range_mm := 30 }

/-- Mutable state of range_service.c relevant to `range_service_update`:
the current reading `current_range_mm` (uint16_t) and the CCC subscription
flag `range_notify_enabled`. -/
structure ServiceState where
  current_range_mm : Nat
  notify_enabled : Bool
deriving Repr, DecidableEq

/-! ## Battery curve (battery.c, `battery_mv_to_pct`) -/

/-- The branch selected by `battery_mv_to_pct` (battery.c lines 86-106),
before the implicit `int` to `uint8_t` conversion of the C return. Every
in-branch dividend is non-negative, so C truncating division agrees with the
euclidean `/` used here on every reachable branch. -/
def battery_pct_raw (mv : Int) : Int :=
  if mv ≥ 4200 then 100
  else if mv ≥ 4100 then 90 + (mv - 4100) * 10 / 100
  else if mv ≥ 3800 then 50 + (mv - 3800) * 40 / 300
  else if mv ≥ 3600 then 20 + (mv - 3600) * 30 / 200
  else if mv ≥ 3300 then (mv - 3300) * 20 / 300
  else 0

/-- Embedding of `battery_mv_to_pct` (battery.c lines 86-106). The C function
returns `uint8_t`, hence the final reduction modulo `2^8`. -/
def battery_mv_to_pct (mv : Int) : Int :=
  battery_pct_raw mv % 256

/-- Modelled from the spec: the piecewise-linear voltage-to-percent table of
spec section 4.2 (`voltage_to_percent`), written with the two-sided interval
guards of the table, to be compared against the source embedding
`battery_mv_to_pct`. -/
def voltage_to_percent (mv : Int) : Int :=
  if 4200 ≤ mv then 100
  else if 4100 ≤ mv ∧ mv < 4200 then 90 + (mv - 4100) * 10 / 100
  else if 3800 ≤ mv ∧ mv < 4100 then 50 + (mv - 3800) * 40 / 300
  else if 3600 ≤ mv ∧ mv < 3800 then 20 + (mv - 3600) * 30 / 200
  else if 3300 ≤ mv ∧ mv < 3600 then (mv - 3300) * 20 / 300
  else 0

/-! ## Config characteristic write handler (range_service.c, `write_config`) -/

/-- ATT error code 0x07, `BT_ATT_ERR_INVALID_OFFSET`. -/
def BT_ATT_ERR_INVALID_OFFSET : Int := 7

/-- ATT error code 0x0D, `BT_ATT_ERR_INVALID_ATTRIBUTE_LEN`. -/
def BT_ATT_ERR_INVALID_ATTRIBUTE_LEN : Int := 13

/-- ATT error code 0x13, `BT_ATT_ERR_VALUE_NOT_ALLOWED`. -/
def BT_ATT_ERR_VALUE_NOT_ALLOWED : Int := 19

/-- Little-endian decoding of one `uint16_t` from two bytes. -/
def le16 (lo hi : Nat) : Nat := lo % 256 + 256 * (hi % 256)

/-- Reinterpretation of an 8-byte payload as `struct range_config`
(range_service.h lines 43-48): packed little-endian fields in the order
`sample_interval_ms`, `notify_interval_ms`, `max_range_mm`, `min_range_mm`.
This models the `const struct range_config *new_config = buf` cast on the
little-endian target. -/
def decodeConfig (b : List Nat) : RangeConfig :=
  { sample_interval_ms := le16 (b.getD 0 0) (b.getD 1 0)
    notify_interval_ms := le16 (b.getD 2 0) (b.getD 3 0)
    max_range_mm := le16 (b.getD 4 0) (b.getD 5 0)
    min_range_mm := le16 (b.getD 6 0) (b.getD 7 0) }

/-- The 8-byte little-endian wire image of a configuration record. -/
def encodeConfig (c : RangeConfig) : List Nat :=
  [c.sample_interval_ms % 256, c.sample_interval_ms / 256 % 256,
   c.notify_interval_ms % 256, c.notify_interval_ms / 256 % 256,
   c.max_range_mm % 256, c.max_range_mm / 256 % 256,
   c.min_range_mm % 256, c.min_range_mm / 256 % 256]

/-- The validation rule named by the distinct `LOG_WRN` message emitted by the
branch of `write_config` that rejects the candidate. -/
inductive ConfigReject where
  | sampleOutOfRange
  | notifyOutOfRange
  | boundsInverted
deriving Repr, DecidableEq

/-- Embedding of `write_config` (range_service.c lines 50-93). Input: the
stored `active_config`, the write offset and the payload bytes (`len` is the
payload length). Output: the stored record after the call, the `ssize_t`
return value (`len` on success, `BT_GATT_ERR(code) = -code` on rejection) and
the validation rule logged on rejection (`none` when no rule was checked or
the write succeeded). -/
def write_config (active : RangeConfig) (offset : Nat) (buf : List Nat) :
    RangeConfig × Int × Option ConfigReject :=
  if 8 < offset + buf.length then
    (active, -BT_ATT_ERR_INVALID_OFFSET, none)
  else if buf.length ≠ 8 then
    (active, -BT_ATT_ERR_INVALID_ATTRIBUTE_LEN, none)
  else if (decodeConfig buf).sample_interval_ms < 10 ∨
      5000 < (decodeConfig buf).sample_interval_ms then
    (active, -BT_ATT_ERR_VALUE_NOT_ALLOWED, some ConfigReject.sampleOutOfRange)
  else if (decodeConfig buf).notify_interval_ms < 10 ∨
      5000 < (decodeConfig buf).notify_interval_ms then
    (active, -BT_ATT_ERR_VALUE_NOT_ALLOWED, some ConfigReject.notifyOutOfRange)
  else if (decodeConfig buf).max_range_mm ≤ (decodeConfig buf).min_range_mm then
    (active, -BT_ATT_ERR_VALUE_NOT_ALLOWED, some ConfigReject.boundsInverted)
  else
    (decodeConfig buf, (buf.length : Int), none)

/-- Embedding of `range_service_get_config` (range_service.c lines 132-135):
returns the stored record. -/
def range_service_get_config (active : RangeConfig) : RangeConfig :=
  active

/-! ## Range update, CCC gate and sensor loop -/

/-- Embedding of `range_ccc_changed` (range_service.c lines 25-29): the new
value of `range_notify_enabled` after a CCC write of `value`
(`BT_GATT_CCC_NOTIFY = 1`). -/
def range_ccc_changed (value : Nat) : Bool :=
  value == 1

/-- Embedding of `range_service_update` (range_service.c lines 120-130):
stores `distance_mm` into `current_range_mm` and, when the subscription gate
is open, attempts one `bt_gatt_notify` push of the stored value. The second
component lists the values pushed during the call (empty when the gate is
closed); the outcome of the push itself is the transport collaborator's and
is not inspected by any caller in the sources. -/
def range_service_update (st : ServiceState) (distance_mm : Nat) :
    ServiceState × List Nat :=
  if st.notify_enabled then
    ({ st with current_range_mm := distance_mm }, [distance_mm])
  else
    ({ st with current_range_mm := distance_mm }, [])

/-- First clamping step of `sensor_thread_fn` (main.c lines 127-129):
substitute `min_range_mm` below the lower bound. -/
def clamp_low (cfg : RangeConfig) (v : Nat) : Nat :=
  if v < cfg.min_range_mm then cfg.min_range_mm else v

/-- Both clamping steps of `sensor_thread_fn` (main.c lines 126-132), applied
to the value already narrowed to `uint16_t`. -/
def clamp_range (cfg : RangeConfig) (v : Nat) : Nat :=
  if cfg.max_range_mm < clamp_low cfg v then cfg.max_range_mm
  else clamp_low cfg v

/-- Embedding of one iteration of the sensor loop body (main.c lines
120-138): `distance` is the `int` result of `read_range_mm` (negative on
sensor failure). On success the raw value is narrowed to `uint16_t`
(reduction modulo `2^16`), clamped against the configuration snapshot, and
passed to `range_service_update`; on failure the tick mutates nothing and
pushes nothing. -/
def sensor_tick (cfg : RangeConfig) (st : ServiceState) (distance : Int) :
    ServiceState × List Nat :=
  if 0 ≤ distance then
    range_service_update st (clamp_range cfg (distance.toNat % 65536))
  else
    (st, [])

/-! ## Connection lifecycle (main.c) -/

/-- Connection-facing state of main.c: whether `current_conn` holds a peer
reference, together with the `range_notify_enabled` flag of range_service.c
(carried here to make explicit what the disconnect path does and does not
touch). -/
structure ConnState where
  has_conn : Bool
  notify_enabled : Bool
deriving Repr, DecidableEq

/-- Embedding of the `disconnected` callback (main.c lines 61-76): the peer
reference is dropped and `bt_le_adv_start` is requested exactly once; its
result `adv_err` is only logged. The second component counts the
advertising-restart requests issued by the call. -/
def disconnected (st : ConnState) (_adv_err : Int) : ConnState × Nat :=
  ({ has_conn := false, notify_enabled := st.notify_enabled }, 1)

end Rangefinder

namespace Rangefinder

/-! ## Battery curve theorems -/

/-- The selected branch always lies in [0, 100]. -/
theorem battery_pct_raw_bounds (mv : Int) :
    0 ≤ battery_pct_raw mv ∧ battery_pct_raw mv ≤ 100 := by
  unfold battery_pct_raw
  repeat' split
  all_goals omega

/-- The `uint8_t` conversion is the identity on the selected branch. -/
theorem battery_mv_to_pct_eq_raw (mv : Int) :
    battery_mv_to_pct mv = battery_pct_raw mv := by
  have h := battery_pct_raw_bounds mv
  unfold battery_mv_to_pct
  omega

/-- C4: the source conversion agrees with the spec table on every input,
is total, and takes the specified values at 4200, 3700, 3300 and below 3300
(hence on every negative input). -/
theorem battery_pct_matches_table :
    (∀ mv : Int, battery_mv_to_pct mv = voltage_to_percent mv) ∧
    battery_mv_to_pct 4200 = 100 ∧
    battery_mv_to_pct 3700 = 35 ∧
    battery_mv_to_pct 3300 = 0 ∧
    (∀ mv : Int, mv < 3300 → battery_mv_to_pct mv = 0) := by
  refine ⟨?_, by decide, by decide, by decide, ?_⟩
  · intro mv
    rw [battery_mv_to_pct_eq_raw]
    unfold battery_pct_raw voltage_to_percent
    repeat' split
    all_goals omega
  · intro mv h
    rw [battery_mv_to_pct_eq_raw]
    unfold battery_pct_raw
    repeat' split
    all_goals omega

/-- Witness for C4 at the concrete input `mv = -1`. -/
theorem battery_pct_matches_table_witness :
    (-1 : Int) < 3300 ∧ battery_mv_to_pct (-1) = 0 :=
  ⟨by decide, battery_pct_matches_table.2.2.2.2 (-1) (by decide)⟩

/-- C5: the conversion is monotonically non-decreasing and bounded to
[0, 100] on every input. -/
theorem battery_pct_monotone_bounded :
    (∀ a b : Int, a ≤ b → battery_mv_to_pct a ≤ battery_mv_to_pct b) ∧
    (∀ mv : Int, 0 ≤ battery_mv_to_pct mv ∧ battery_mv_to_pct mv ≤ 100) := by
  constructor
  · intro a b hab
    rw [battery_mv_to_pct_eq_raw, battery_mv_to_pct_eq_raw]
    unfold battery_pct_raw
    repeat' split
    all_goals omega
  · intro mv
    rw [battery_mv_to_pct_eq_raw]
    exact battery_pct_raw_bounds mv

/-- Witness for C5 at the concrete pair (3500, 3900). -/
theorem battery_pct_monotone_bounded_witness :
    (3500 : Int) ≤ 3900 ∧ battery_mv_to_pct 3500 ≤ battery_mv_to_pct 3900 :=
  ⟨by decide, battery_pct_monotone_bounded.1 3500 3900 (by decide)⟩

/-! ## Config write theorems -/

/-- Decoding the wire image of a record with `uint16_t`-ranged fields
recovers the record. -/
theorem decode_encode (c : RangeConfig)
    (hs : c.sample_interval_ms < 65536) (hn : c.notify_interval_ms < 65536)
    (hx : c.max_range_mm < 65536) (hm : c.min_range_mm < 65536) :
    decodeConfig (encodeConfig c) = c := by
  obtain ⟨s, n, x, m⟩ := c
  dsimp only at hs hn hx hm
  simp only [decodeConfig, encodeConfig, le16, List.getD, List.get?,
    Option.getD_some, RangeConfig.mk.injEq]
  refine ⟨?_, ?_, ?_, ?_⟩ <;> simp <;> omega

/-- C2: a full-length (offset 0, 8-byte) write of any candidate satisfying
all three invariants succeeds, returns the payload length, and replaces the
stored record as a whole, so that a subsequent `range_service_get_config`
returns exactly the written record. -/
theorem write_config_valid_replaces (s c : RangeConfig)
    (h1 : 10 ≤ c.sample_interval_ms) (h2 : c.sample_interval_ms ≤ 5000)
    (h3 : 10 ≤ c.notify_interval_ms) (h4 : c.notify_interval_ms ≤ 5000)
    (h5 : c.min_range_mm < c.max_range_mm) (h6 : c.max_range_mm < 65536) :
    write_config s 0 (encodeConfig c) = (c, 8, none) ∧
    range_service_get_config (write_config s 0 (encodeConfig c)).1 = c := by
  have hlen : (encodeConfig c).length = 8 := by simp [encodeConfig]
  have hd : decodeConfig (encodeConfig c) = c :=
    decode_encode c (by omega) (by omega) (by omega) (by omega)
  have hw : write_config s 0 (encodeConfig c) = (c, 8, none) := by
    unfold write_config
    rw [hlen, hd]
    rw [if_neg (by omega), if_neg (by omega), if_neg (by omega),
        if_neg (by omega), if_neg (by omega)]
    norm_num
  exact ⟨hw, by rw [hw]; rfl⟩

/-- Witness for C2 at the concrete candidate (200, 300, 800, 50) written over
the default configuration. -/
theorem write_config_valid_replaces_witness :
    write_config default_config 0
      (encodeConfig ⟨200, 300, 800, 50⟩) = (⟨200, 300, 800, 50⟩, 8, none) :=
  (write_config_valid_replaces default_config ⟨200, 300, 800, 50⟩
    (by decide) (by decide) (by decide) (by decide) (by decide) (by decide)).1

/-- Counterexample to C1: a candidate violating only the sample-interval rule
and a candidate violating only the min/max rule are both rejected with the
same ATT error code (`BT_ATT_ERR_VALUE_NOT_ALLOWED`), so the handler does not
return a distinct reason code per violated rule. -/
theorem write_config_same_code_cex :
    (write_config default_config 0
        (encodeConfig ⟨5, 100, 1200, 30⟩)).2.1 = -BT_ATT_ERR_VALUE_NOT_ALLOWED ∧
    (write_config default_config 0
        (encodeConfig ⟨100, 100, 500, 500⟩)).2.1 = -BT_ATT_ERR_VALUE_NOT_ALLOWED ∧
    (decodeConfig (encodeConfig ⟨5, 100, 1200, 30⟩)).sample_interval_ms < 10 ∧
    10 ≤ (decodeConfig (encodeConfig ⟨100, 100, 500, 500⟩)).sample_interval_ms ∧
    (decodeConfig (encodeConfig ⟨100, 100, 500, 500⟩)).sample_interval_ms ≤ 5000 ∧
    10 ≤ (decodeConfig (encodeConfig ⟨100, 100, 500, 500⟩)).notify_interval_ms ∧
    (decodeConfig (encodeConfig ⟨100, 100, 500, 500⟩)).notify_interval_ms ≤ 5000 ∧
    (decodeConfig (encodeConfig ⟨100, 100, 500, 500⟩)).max_range_mm ≤
      (decodeConfig (encodeConfig ⟨100, 100, 500, 500⟩)).min_range_mm := by
  decide

/-- C1 (amended): an 8-byte write whose candidate violates an invariant is
rejected and leaves the stored record untouched; the rules are checked in the
order sample-interval range, notify-interval range, min-below-max, and the
first violated rule determines the warning logged — but the ATT error code
returned is the same `BT_ATT_ERR_VALUE_NOT_ALLOWED` for all three rules. -/
theorem write_config_invalid_rejected (s : RangeConfig) (buf : List Nat)
    (hlen : buf.length = 8) :
    ((decodeConfig buf).sample_interval_ms < 10 ∨
        5000 < (decodeConfig buf).sample_interval_ms →
      write_config s 0 buf =
        (s, -BT_ATT_ERR_VALUE_NOT_ALLOWED, some ConfigReject.sampleOutOfRange)) ∧
    (10 ≤ (decodeConfig buf).sample_interval_ms →
        (decodeConfig buf).sample_interval_ms ≤ 5000 →
        ((decodeConfig buf).notify_interval_ms < 10 ∨
          5000 < (decodeConfig buf).notify_interval_ms) →
      write_config s 0 buf =
        (s, -BT_ATT_ERR_VALUE_NOT_ALLOWED, some ConfigReject.notifyOutOfRange)) ∧
    (10 ≤ (decodeConfig buf).sample_interval_ms →
        (decodeConfig buf).sample_interval_ms ≤ 5000 →
        10 ≤ (decodeConfig buf).notify_interval_ms →
        (decodeConfig buf).notify_interval_ms ≤ 5000 →
        (decodeConfig buf).max_range_mm ≤ (decodeConfig buf).min_range_mm →
      write_config s 0 buf =
        (s, -BT_ATT_ERR_VALUE_NOT_ALLOWED, some ConfigReject.boundsInverted)) := by
  refine ⟨?_, ?_, ?_⟩
  · intro h
    unfold write_config
    rw [hlen, if_neg (by omega), if_neg (by omega), if_pos h]
  · intro h1 h2 h3
    unfold write_config
    rw [hlen, if_neg (by omega), if_neg (by omega), if_neg (by omega), if_pos h3]
  · intro h1 h2 h3 h4 h5
    unfold write_config
    rw [hlen, if_neg (by omega), if_neg (by omega), if_neg (by omega),
        if_neg (by omega), if_pos h5]

/-- Witness for C1 (amended) at a candidate whose notify interval is 6000. -/
theorem write_config_invalid_rejected_witness :
    (encodeConfig ⟨100, 6000, 1200, 30⟩).length = 8 ∧
    write_config default_config 0 (encodeConfig ⟨100, 6000, 1200, 30⟩) =
      (default_config, -BT_ATT_ERR_VALUE_NOT_ALLOWED,
        some ConfigReject.notifyOutOfRange) :=
  ⟨by decide,
    (write_config_invalid_rejected default_config
        (encodeConfig ⟨100, 6000, 1200, 30⟩) (by decide)).2.1
      (by decide) (by decide) (by decide)⟩

/-- Counterexample to C8: a 10-byte payload at offset 0 has length different
from 8 yet is rejected with `BT_ATT_ERR_INVALID_OFFSET`, a code different from
the malformed-length code `BT_ATT_ERR_INVALID_ATTRIBUTE_LEN` that the 6-byte
payload receives, so not every wrong-length write gets the malformed-length
error. -/
theorem write_config_overlong_cex :
    List.length (List.replicate 10 0) ≠ 8 ∧
    (write_config default_config 0 (List.replicate 10 0)).2.1 =
      -BT_ATT_ERR_INVALID_OFFSET ∧
    (write_config default_config 0 (List.replicate 6 0)).2.1 =
      -BT_ATT_ERR_INVALID_ATTRIBUTE_LEN ∧
    -BT_ATT_ERR_INVALID_OFFSET ≠ -BT_ATT_ERR_INVALID_ATTRIBUTE_LEN := by
  decide

/-- C8 (amended): a write that would overrun the 8-byte record
(offset + length > 8) is rejected with the invalid-offset code; any other
write whose length is not exactly 8 is rejected with the malformed-length
code. Both rejections happen before any invariant validation (no rule is
logged), leave the stored record untouched, and both codes are distinct from
the validation-failure code. -/
theorem write_config_malformed_rejected (s : RangeConfig) (offset : Nat)
    (buf : List Nat) :
    (8 < offset + buf.length →
      write_config s offset buf = (s, -BT_ATT_ERR_INVALID_OFFSET, none)) ∧
    (offset + buf.length ≤ 8 → buf.length ≠ 8 →
      write_config s offset buf =
        (s, -BT_ATT_ERR_INVALID_ATTRIBUTE_LEN, none)) ∧
    -BT_ATT_ERR_INVALID_OFFSET ≠ -BT_ATT_ERR_VALUE_NOT_ALLOWED ∧
    -BT_ATT_ERR_INVALID_ATTRIBUTE_LEN ≠ -BT_ATT_ERR_VALUE_NOT_ALLOWED := by
  refine ⟨?_, ?_, by decide, by decide⟩
  · intro h
    unfold write_config
    rw [if_pos h]
  · intro h1 h2
    unfold write_config
    rw [if_neg (by omega), if_pos h2]

/-- Witness for C8 (amended): the 6-byte payload of the spec scenario is
rejected with the malformed-length code and the default config is kept. -/
theorem write_config_malformed_rejected_witness :
    0 + List.length (List.replicate 6 0) ≤ 8 ∧
    List.length (List.replicate 6 0) ≠ 8 ∧
    write_config default_config 0 (List.replicate 6 0) =
      (default_config, -BT_ATT_ERR_INVALID_ATTRIBUTE_LEN, none) :=
  ⟨by decide, by decide,
    (write_config_malformed_rejected default_config 0
        (List.replicate 6 0)).2.1 (by decide) (by decide)⟩

/-! ## Sensor loop theorems -/

/-- Characterisation of the two-step clamp of main.c for configurations with
ordered bounds. -/
theorem clamp_range_spec (cfg : RangeConfig) (v : Nat)
    (hmm : cfg.min_range_mm ≤ cfg.max_range_mm) :
    (cfg.min_range_mm ≤ clamp_range cfg v ∧
      clamp_range cfg v ≤ cfg.max_range_mm) ∧
    (v < cfg.min_range_mm → clamp_range cfg v = cfg.min_range_mm) ∧
    (cfg.max_range_mm < v → clamp_range cfg v = cfg.max_range_mm) ∧
    (cfg.min_range_mm ≤ v → v ≤ cfg.max_range_mm → clamp_range cfg v = v) := by
  by_cases h1 : v < cfg.min_range_mm
  · have hl : clamp_low cfg v = cfg.min_range_mm := by
      unfold clamp_low; rw [if_pos h1]
    have hc : clamp_range cfg v = cfg.min_range_mm := by
      unfold clamp_range; rw [hl, if_neg (by omega)]
    refine ⟨⟨?_, ?_⟩, ?_, ?_, ?_⟩ <;> intros <;> omega
  · have hl : clamp_low cfg v = v := by
      unfold clamp_low; rw [if_neg h1]
    by_cases h2 : cfg.max_range_mm < v
    · have hc : clamp_range cfg v = cfg.max_range_mm := by
        unfold clamp_range; rw [hl, if_pos h2]
      refine ⟨⟨?_, ?_⟩, ?_, ?_, ?_⟩ <;> intros <;> omega
    · have hc : clamp_range cfg v = v := by
        unfold clamp_range; rw [hl, if_neg h2]
      refine ⟨⟨?_, ?_⟩, ?_, ?_, ?_⟩ <;> intros <;> omega

/-- On a successful sample the tick stores the clamp of the narrowed raw
value and does not transition the gate. -/
theorem sensor_tick_stores (cfg : RangeConfig) (st : ServiceState) (d : Int)
    (hd : 0 ≤ d) :
    (sensor_tick cfg st d).1.current_range_mm =
      clamp_range cfg (d.toNat % 65536) ∧
    (sensor_tick cfg st d).1.notify_enabled = st.notify_enabled := by
  unfold sensor_tick range_service_update
  rw [if_pos hd]
  rcases h : st.notify_enabled <;> simp [h]

/-- C9: a tick on which the sensor read fails (negative return) leaves the
service state exactly as it was and pushes no notification. -/
theorem sensor_tick_failure_skips (cfg : RangeConfig) (st : ServiceState)
    (d : Int) (hd : d < 0) :
    sensor_tick cfg st d = (st, []) := by
  unfold sensor_tick
  rw [if_neg (by omega)]

/-- Witness for C9 at the concrete sensor error -5. -/
theorem sensor_tick_failure_skips_witness :
    (-5 : Int) < 0 ∧
    sensor_tick default_config ⟨777, true⟩ (-5) = (⟨777, true⟩, []) :=
  ⟨by decide, sensor_tick_failure_skips default_config ⟨777, true⟩ (-5) (by decide)⟩

/-- C6: on a successful sample, the clamped value is always stored; with the
subscription gate closed no push is attempted, and with the gate open exactly
one push of the stored clamped value is attempted. The gate itself is not
changed by the tick. -/
theorem sensor_tick_gate (cfg : RangeConfig) (st : ServiceState) (d : Int)
    (hd : 0 ≤ d) :
    (sensor_tick cfg st d).1.current_range_mm =
      clamp_range cfg (d.toNat % 65536) ∧
    (sensor_tick cfg st d).1.notify_enabled = st.notify_enabled ∧
    (st.notify_enabled = false → (sensor_tick cfg st d).2 = []) ∧
    (st.notify_enabled = true →
      (sensor_tick cfg st d).2 = [clamp_range cfg (d.toNat % 65536)]) := by
  unfold sensor_tick range_service_update
  rw [if_pos hd]
  rcases h : st.notify_enabled <;> simp [h]

/-- Witness for C6: a 500 mm sample with the gate closed stores 500 and
pushes nothing; the same sample with the gate open pushes exactly [500]. -/
theorem sensor_tick_gate_witness :
    (0 : Int) ≤ 500 ∧
    (sensor_tick default_config ⟨0, false⟩ 500).2 = [] ∧
    (sensor_tick default_config ⟨0, true⟩ 500).2 =
      [clamp_range default_config ((500 : Int).toNat % 65536)] :=
  ⟨by decide,
    (sensor_tick_gate default_config ⟨0, false⟩ 500 (by decide)).2.2.1 rfl,
    (sensor_tick_gate default_config ⟨0, true⟩ 500 (by decide)).2.2.2 rfl⟩

/-- Counterexample to C3: under the default configuration (min 30, max 1200)
the successfully read raw distance 65566 mm exceeds `max_range_mm`, yet the
tick stores 30 — not the upper bound 1200 — because the raw value is narrowed
to `uint16_t` before clamping. -/
theorem sensor_tick_clamp_cex :
    default_config.min_range_mm = 30 ∧
    default_config.max_range_mm = 1200 ∧
    default_config.max_range_mm < 65566 ∧
    (sensor_tick default_config ⟨0, false⟩ 65566).1.current_range_mm = 30 ∧
    (30 : Nat) ≠ default_config.max_range_mm := by
  decide

/-- C3 (amended): on a successful sample the stored reading always lies
within `[min_range_mm, max_range_mm]` of the configuration in effect at the
tick (whose accepted records satisfy min ≤ max); the clamping is applied to
the raw distance narrowed to `uint16_t`, so for raw values below `2^16` a
value below `min_range_mm` is stored as `min_range_mm`, a value above
`max_range_mm` as `max_range_mm`, and an in-window value unchanged — in
particular, under the default configuration a raw 1500 mm reading is stored
as 1200 and a raw 5 mm reading as 30. -/
theorem sensor_tick_clamps (cfg : RangeConfig) (st : ServiceState) (d : Int)
    (hmm : cfg.min_range_mm ≤ cfg.max_range_mm) (hd : 0 ≤ d) :
    (cfg.min_range_mm ≤ (sensor_tick cfg st d).1.current_range_mm ∧
      (sensor_tick cfg st d).1.current_range_mm ≤ cfg.max_range_mm) ∧
    (d.toNat < 65536 →
      (d.toNat < cfg.min_range_mm →
        (sensor_tick cfg st d).1.current_range_mm = cfg.min_range_mm) ∧
      (cfg.max_range_mm < d.toNat →
        (sensor_tick cfg st d).1.current_range_mm = cfg.max_range_mm) ∧
      (cfg.min_range_mm ≤ d.toNat → d.toNat ≤ cfg.max_range_mm →
        (sensor_tick cfg st d).1.current_range_mm = d.toNat)) := by
  have hs := sensor_tick_stores cfg st d hd
  have hc := clamp_range_spec cfg (d.toNat % 65536) hmm
  refine ⟨⟨?_, ?_⟩, ?_⟩
  · rw [hs.1]; exact hc.1.1
  · rw [hs.1]; exact hc.1.2
  · intro hlt
    have hmod : d.toNat % 65536 = d.toNat := Nat.mod_eq_of_lt hlt
    rw [hmod] at hc
    exact ⟨fun h1 => by rw [hs.1, hmod]; exact hc.2.1 h1,
           fun h1 => by rw [hs.1, hmod]; exact hc.2.2.1 h1,
           fun h1 h2 => by rw [hs.1, hmod]; exact hc.2.2.2 h1 h2⟩

/-- Witness for C3 (amended): the default-configuration scenario raw 1500 mm
is stored as 1200 and raw 5 mm as 30. -/
theorem sensor_tick_clamps_witness :
    default_config.min_range_mm ≤ default_config.max_range_mm ∧
    (sensor_tick default_config ⟨0, false⟩ 1500).1.current_range_mm = 1200 ∧
    (sensor_tick default_config ⟨0, false⟩ 5).1.current_range_mm = 30 :=
  ⟨by decide,
    by
      have h := (sensor_tick_clamps default_config ⟨0, false⟩ 1500
        (by decide) (by decide)).2 (by decide)
      exact h.2.1 (by decide),
    by
      have h := (sensor_tick_clamps default_config ⟨0, false⟩ 5
        (by decide) (by decide)).2 (by decide)
      exact h.1 (by decide)⟩

/-- C10: on every successful sample the stored value is the clamp of the raw
distance reduced modulo `2^16`; concretely, the non-negative raw distance
65566 mm exceeds the default `max_range_mm` of 1200, yet the stored value is
65566 mod 65536 = 30, an in-window value different from `max_range_mm`. -/
theorem sensor_tick_mod_before_clamp :
    (∀ (cfg : RangeConfig) (st : ServiceState) (d : Int), 0 ≤ d →
      (sensor_tick cfg st d).1.current_range_mm =
        clamp_range cfg (d.toNat % 65536)) ∧
    (65566 : Int).toNat % 65536 = 30 ∧
    default_config.max_range_mm < (65566 : Int).toNat ∧
    (sensor_tick default_config ⟨0, false⟩ 65566).1.current_range_mm = 30 ∧
    default_config.min_range_mm ≤ 30 ∧ (30 : Nat) ≤ default_config.max_range_mm ∧
    (30 : Nat) ≠ default_config.max_range_mm := by
  refine ⟨?_, by decide, by decide, by decide, by decide, by decide, by decide⟩
  intro cfg st d hd
  unfold sensor_tick range_service_update
  rw [if_pos hd]
  rcases h : st.notify_enabled <;> simp [h]

/-- Witness for C10 at the concrete raw distance 65566. -/
theorem sensor_tick_mod_before_clamp_witness :
    (0 : Int) ≤ 65566 ∧
    (sensor_tick default_config ⟨0, false⟩ 65566).1.current_range_mm =
      clamp_range default_config ((65566 : Int).toNat % 65536) :=
  ⟨by decide,
    sensor_tick_mod_before_clamp.1 default_config ⟨0, false⟩ 65566 (by decide)⟩

/-! ## Connection lifecycle theorems -/

/-- Counterexample to C7: with a peer attached and the subscription gate
open, running the disconnect handler leaves the gate open — the handler never
touches `range_notify_enabled`, so it does not force the SubscriptionGate to
Closed. -/
theorem disconnected_gate_cex :
    (disconnected ⟨true, true⟩ 0).1.notify_enabled = true ∧
    true ≠ false := by
  decide

/-- C7 (amended): the disconnect handler releases the peer handle and issues
exactly one advertising-restart request, whose failure is only logged (the
handler's outcome does not depend on the request's result); it does not
itself modify the subscription gate — the gate closes only through the
transport's CCC-changed callback, which yields a closed gate for any CCC
value other than notify (in particular value 0). -/
theorem disconnected_behavior :
    (∀ (st : ConnState) (e : Int),
      (disconnected st e).1.has_conn = false ∧
      (disconnected st e).1.notify_enabled = st.notify_enabled ∧
      (disconnected st e).2 = 1 ∧
      disconnected st e = disconnected st 0) ∧
    range_ccc_changed 0 = false ∧ range_ccc_changed 1 = true := by
  exact ⟨fun st e => ⟨rfl, rfl, rfl, rfl⟩, rfl, rfl⟩

end Rangefinder
